import Mathlib

/-
Shallow embedding of the go-klogger package (klogger.go, parsers.go):
a fluent log-message builder over a process-wide logrus logger, plus
string-to-level parsing helpers.

Machine integers: logrus.Level is a Go uint32 whose constants are small
(0..6), so all level arithmetic is modelled on Nat; no overflow can occur.
Go maps are modelled as a heap of functions String -> Option GoValue so
that aliasing and copying are observable.  Pointers (builders, logrus
logger instances) are heap identifiers into a World record.
-/

namespace GoKlogger

/- Level constants of the logrus collaborator.  In logrus, severity
constants are numbered with Panic smallest: PanicLevel = 0, FatalLevel = 1,
ErrorLevel = 2, WarnLevel = 3, InfoLevel = 4, DebugLevel = 5,
TraceLevel = 6.  This is the reverse of reading order of severity. -/
namespace logrus

def PanicLevel : Nat := 0

def FatalLevel : Nat := 1

def ErrorLevel : Nat := 2

def WarnLevel : Nat := 3

def InfoLevel : Nat := 4

def DebugLevel : Nat := 5

def TraceLevel : Nat := 6

end logrus

/-- LogLevel is the enumeration declared in parsers.go:
TraceLevel = 0, DebugLevel, InfoLevel, WarnLevel, ErrorLevel, FatalLevel,
PanicLevel (iota order, Trace smallest). -/
inductive LogLevel where
  | TraceLevel
  | DebugLevel
  | InfoLevel
  | WarnLevel
  | ErrorLevel
  | FatalLevel
  | PanicLevel
deriving DecidableEq, Repr

/-- Whitespace predicate of Go unicode.IsSpace in the Latin-1 range, as
used by strings.TrimSpace: space, tab, newline, vertical tab, form feed,
carriage return, next line and no-break space. -/
def goIsSpace (c : Char) : Bool :=
  c = ' ' || c.toNat = 9 || c.toNat = 10 || c.toNat = 11 || c.toNat = 12 ||
    c.toNat = 13 || c.toNat = 0x85 || c.toNat = 0xA0

namespace strings

/-- Model of strings.TrimSpace: drop leading and trailing whitespace. -/
def TrimSpace (s : String) : String :=
  String.mk (((s.data.dropWhile goIsSpace).reverse.dropWhile goIsSpace).reverse)

/-- Lower-casing of one character.  Go strings.ToLower applies the Unicode
simple case mapping per rune; this model applies its restriction to the
ASCII range, which is the identity outside A..Z. -/
def toLowerChar (c : Char) : Char :=
  if 'A' ≤ c && c ≤ 'Z' then Char.ofNat (c.toNat + 32) else c

/-- Model of strings.ToLower (ASCII fragment of the Unicode mapping). -/
def ToLower (s : String) : String :=
  String.mk (s.data.map toLowerChar)

end strings

/-- ParseLogLevel (klogger.go): trim and lower-case the input, then switch
over the recognized tokens; any unrecognized input yields logrus.InfoLevel. -/
def ParseLogLevel (level : String) : Nat :=
  let level := strings.ToLower (strings.TrimSpace level)
  if level = "trace" then logrus.TraceLevel
  else if level = "debug" then logrus.DebugLevel
  else if level = "info" then logrus.InfoLevel
  else if level = "warn" ∨ level = "warning" then logrus.WarnLevel
  else if level = "error" then logrus.ErrorLevel
  else if level = "fatal" then logrus.FatalLevel
  else if level = "panic" then logrus.PanicLevel
  else logrus.InfoLevel

/-- StringToLogrusLevel (parsers.go): a verbatim duplicate of
ParseLogLevel, switching over the same tokens with the same default. -/
def StringToLogrusLevel (level : String) : Nat :=
  let level := strings.ToLower (strings.TrimSpace level)
  if level = "trace" then logrus.TraceLevel
  else if level = "debug" then logrus.DebugLevel
  else if level = "info" then logrus.InfoLevel
  else if level = "warn" ∨ level = "warning" then logrus.WarnLevel
  else if level = "error" then logrus.ErrorLevel
  else if level = "fatal" then logrus.FatalLevel
  else if level = "panic" then logrus.PanicLevel
  else logrus.InfoLevel

/-- StringToLogLevel (parsers.go): same switch, returning the package's own
LogLevel enumeration instead of a logrus level. -/
def StringToLogLevel (level : String) : LogLevel :=
  let level := strings.ToLower (strings.TrimSpace level)
  if level = "trace" then LogLevel.TraceLevel
  else if level = "debug" then LogLevel.DebugLevel
  else if level = "info" then LogLevel.InfoLevel
  else if level = "warn" ∨ level = "warning" then LogLevel.WarnLevel
  else if level = "error" then LogLevel.ErrorLevel
  else if level = "fatal" then LogLevel.FatalLevel
  else if level = "panic" then LogLevel.PanicLevel
  else LogLevel.InfoLevel

/-- Model of a Go interface value stored in a log field.  Every value the
repository passes into a field is a string, so one constructor suffices. -/
inductive GoValue where
  | str (s : String)
deriving DecidableEq, Repr

/-- Underlying string of a GoValue. -/
def GoValue.goString : GoValue → String
  | .str s => s

/-- Contents of a Go map from string to interface value. -/
def FieldMap : Type := String → Option GoValue

/-- Setting one key of a map: l.Data[key] = value. -/
def mapSet (m : FieldMap) (key : String) (value : GoValue) : FieldMap :=
  fun x => if x = key then some value else m x

/-- Merging src into dst, one Go map-range iteration of assignments:
for k, v := range src, dst[k] = v.  The final contents are
order-independent: a key present in src takes the src value. -/
def mapMerge (dst src : FieldMap) : FieldMap :=
  fun k => match src k with
    | some v => some v
    | none => dst k

/-- Formatter strategy handed to the logrus collaborator; opaque to this
package beyond identity. -/
inductive Formatter where
  | TextFormatter
  | JSONFormatter
  | custom (n : Nat)
deriving DecidableEq, Repr

/-- One invocation of a logrus emit primitive: the severity, the field
mapping passed through WithFields and the message string. -/
structure Entry where
  level : Nat
  fields : FieldMap
  msg : String

/-- State of one logrus.Logger instance.  calls records every invocation
of WithFields(...).<Severity>(msg) the instance received (the collaborator
acting as a recording fake); out records the entries the instance actually
logs, i.e. those passing its own IsLevelEnabled check
(entry level <= logger level numerically). -/
structure LogrusLogger where
  level : Nat
  formatter : Formatter
  calls : List Entry
  out : List Entry

/-- The KLogger builder struct.  Logger is a possibly nil pointer to a
logrus.Logger (a heap identifier); Data is the identifier of the Go map
holding the accumulated fields; LogLevel has Go zero value 0. -/
structure KLogger where
  Logger : Option Nat
  Message : String
  LogLevel : Nat
  Data : Nat

/-- Whole-program state: the package globals (once guard, globalLogger
pointer, defaultFields map pointer) together with heaps of logrus logger
instances, Go maps and KLogger builders, each with an allocation
counter. -/
structure World where
  once : Bool
  globalLogger : Option Nat
  defaultFields : Option Nat
  loggers : Nat → LogrusLogger
  nextLogger : Nat
  maps : Nat → FieldMap
  nextMap : Nat
  builders : Nat → KLogger
  nextBuilder : Nat

/-- The state at process start: once unfired, globalLogger and
defaultFields nil, all heaps empty. -/
def World.init : World where
  once := false
  globalLogger := none
  defaultFields := none
  loggers := fun _ => ⟨0, Formatter.custom 0, [], []⟩
  nextLogger := 0
  maps := fun _ => fun _ => none
  nextMap := 0
  builders := fun _ => ⟨none, "", 0, 0⟩
  nextBuilder := 0

/-- Heap update of one logrus logger instance. -/
def World.putLogger (w : World) (g : Nat) (L : LogrusLogger) : World :=
  { w with loggers := fun i => if i = g then L else w.loggers i }

/-- Heap update of one Go map. -/
def World.putMap (w : World) (d : Nat) (m : FieldMap) : World :=
  { w with maps := fun i => if i = d then m else w.maps i }

/-- Heap update of one builder. -/
def World.putBuilder (w : World) (b : Nat) (k : KLogger) : World :=
  { w with builders := fun i => if i = b then k else w.builders i }

/-- Bump of the map allocation counter. -/
def World.nextMapIncr (w : World) : World :=
  { w with nextMap := w.nextMap + 1 }

/-- Allocation of a Go map literal with the given contents (a map composite
literal in caller code, or make plus assignments). -/
def World.allocMap (w : World) (m : FieldMap) : World × Nat :=
  ((w.putMap w.nextMap m).nextMapIncr, w.nextMap)

namespace logrus

/-- logrus.New(): a fresh Logger with Level InfoLevel and a new
TextFormatter, no recorded activity. -/
def New (w : World) : World × Nat :=
  ({ w.putLogger w.nextLogger ⟨InfoLevel, Formatter.TextFormatter, [], []⟩ with
      nextLogger := w.nextLogger + 1 }, w.nextLogger)

/-- Logger.SetLevel: store the minimum level of the instance. -/
def SetLevel (w : World) (g : Nat) (level : Nat) : World :=
  w.putLogger g { w.loggers g with level := level }

/-- Logger.SetFormatter: store the formatting strategy of the instance. -/
def SetFormatter (w : World) (g : Nat) (f : Formatter) : World :=
  w.putLogger g { w.loggers g with formatter := f }

end logrus

/-- DefaultLogLevel constant of klogger.go. -/
def DefaultLogLevel : Nat := logrus.DebugLevel

/-- InitializeGlobalLogger: inside once.Do, construct a fresh logrus
logger, set its level and formatter and publish it as globalLogger.  The
body runs only if once has not fired; afterwards once is consumed. -/
def InitializeGlobalLogger (w : World) (level : Nat) (formatter : Formatter) : World :=
  if w.once then w
  else
    let p := logrus.New w
    let w1 := logrus.SetFormatter (logrus.SetLevel p.1 p.2 level) p.2 formatter
    { w1 with globalLogger := some p.2, once := true }

/-- SetLogger: unconditionally replace the global logger reference. -/
def SetLogger (w : World) (g : Nat) : World :=
  { w with globalLogger := some g }

/-- SetDefaultFields: unconditionally replace the default-fields map
reference (a Go map value, possibly nil). -/
def SetDefaultFields (w : World) (m : Option Nat) : World :=
  { w with defaultFields := m }

namespace fmt

/-- Rendering of the extra-argument suffix fmt emits when arguments remain
after the format string is exhausted. -/
def extraArgs (vs : List GoValue) : List Char :=
  ("%!(EXTRA " ++ String.intercalate ", "
      (vs.map fun v => "string=" ++ v.goString) ++ ")").data

/-- Core of fmt.Sprintf over the verbs the repository uses: %s substitutes
the next argument, %% is a literal percent, every other character is
copied.  A %s with no argument left renders the fmt MISSING marker, and
arguments left over when the format ends render the EXTRA suffix. -/
def sprintfChars : List Char → List GoValue → List Char
  | [], [] => []
  | [], v :: vs => extraArgs (v :: vs)
  | '%' :: 's' :: rest, v :: vs => v.goString.data ++ sprintfChars rest vs
  | '%' :: 's' :: rest, [] => "%!s(MISSING)".data ++ sprintfChars rest []
  | '%' :: '%' :: rest, vs => '%' :: sprintfChars rest vs
  | c :: rest, vs => c :: sprintfChars rest vs

/-- Model of fmt.Sprintf(format, vars...). -/
def Sprintf (format : String) (vars : List GoValue) : String :=
  String.mk (sprintfChars format.data vars)

end fmt

namespace KLogger

/-- AddData: for k, v := range data, l.Data[k] = v; the data argument is a
Go map value, nil meaning zero iterations.  Returns the same builder. -/
def AddData (w : World) (b : Nat) (data : Option Nat) : World × Nat :=
  match data with
  | none => (w, b)
  | some m =>
    let l := w.builders b
    (w.putMap l.Data (mapMerge (w.maps l.Data) (w.maps m)), b)

/-- Add: l.Data[key] = value; returns the same builder. -/
def Add (w : World) (b : Nat) (key : String) (value : GoValue) : World × Nat :=
  let l := w.builders b
  (w.putMap l.Data (mapSet (w.maps l.Data) key value), b)

/-- AddError: l.Data[error key] = err.Error() and l.Data[stack key] = the
rendered debug.Stack() capture.  The error text and the captured stack text
are runtime inputs of the call, taken here as parameters. -/
def AddError (w : World) (b : Nat) (err : String) (stack : String) : World × Nat :=
  let l := w.builders b
  (w.putMap l.Data
      (mapSet (mapSet (w.maps l.Data) "error" (GoValue.str err))
        "stack" (GoValue.str stack)), b)

/-- SetLogLevel: store the level in the builder's LogLevel field and call
SetLevel on the logrus instance the builder references (a nil reference
would fault in Go and is left unchanged here); returns the same builder. -/
def SetLogLevel (w : World) (b : Nat) (level : Nat) : World × Nat :=
  let l := w.builders b
  let w1 := w.putBuilder b { l with LogLevel := level }
  match l.Logger with
  | some g => (logrus.SetLevel w1 g level, b)
  | none => (w1, b)

end KLogger

/-- Logf: run the one-time initializer with the default level and a JSON
formatter, allocate a builder holding the current global logger, the
eagerly rendered message, zero LogLevel and a fresh empty Data map, then
merge the current default fields into it via AddData. -/
def Logf (w : World) (format : String) (vars : List GoValue) : World × Nat :=
  let w0 := InitializeGlobalLogger w DefaultLogLevel Formatter.JSONFormatter
  let d := w0.nextMap
  let w1 := (w0.putMap d (fun _ => none)).nextMapIncr
  let b := w1.nextBuilder
  let w2 := { w1.putBuilder b
      ⟨w1.globalLogger, fmt.Sprintf format vars, 0, d⟩ with
        nextBuilder := b + 1 }
  KLogger.AddData w2 b w2.defaultFields

/-- The body of l.Logger.WithFields(l.Data).<Severity>(l.Message): the
referenced logrus instance records the invocation in calls and, when its
own level check entry level <= instance level passes, also logs it to
out. -/
def World.emit (w : World) (b : Nat) (lvl : Nat) : World :=
  let l := w.builders b
  match l.Logger with
  | none => w
  | some g =>
    let lg := w.loggers g
    let e : Entry := ⟨lvl, w.maps l.Data, l.Message⟩
    w.putLogger g
      { lg with
        calls := lg.calls ++ [e]
        out := if lvl ≤ lg.level then lg.out ++ [e] else lg.out }

namespace KLogger

/-- Terminal method Info: forward iff l.LogLevel <= logrus.InfoLevel. -/
def Info (w : World) (b : Nat) : World × Nat :=
  if (w.builders b).LogLevel ≤ logrus.InfoLevel
  then (World.emit w b logrus.InfoLevel, b) else (w, b)

/-- Terminal method Warn: forward iff l.LogLevel <= logrus.WarnLevel. -/
def Warn (w : World) (b : Nat) : World × Nat :=
  if (w.builders b).LogLevel ≤ logrus.WarnLevel
  then (World.emit w b logrus.WarnLevel, b) else (w, b)

/-- Terminal method Debug: forward iff l.LogLevel <= logrus.DebugLevel. -/
def Debug (w : World) (b : Nat) : World × Nat :=
  if (w.builders b).LogLevel ≤ logrus.DebugLevel
  then (World.emit w b logrus.DebugLevel, b) else (w, b)

/-- Terminal method Error: forward iff l.LogLevel <= logrus.ErrorLevel. -/
def Error (w : World) (b : Nat) : World × Nat :=
  if (w.builders b).LogLevel ≤ logrus.ErrorLevel
  then (World.emit w b logrus.ErrorLevel, b) else (w, b)

/-- Terminal method Fatal: forward iff l.LogLevel <= logrus.FatalLevel.
The process-exit behavior logrus attaches to a fatal entry is the
collaborator's and is not modelled. -/
def Fatal (w : World) (b : Nat) : World × Nat :=
  if (w.builders b).LogLevel ≤ logrus.FatalLevel
  then (World.emit w b logrus.FatalLevel, b) else (w, b)

/-- Terminal method Panic: forward iff l.LogLevel <= logrus.PanicLevel.
The unwinding behavior logrus attaches to a panic entry is the
collaborator's and is not modelled. -/
def Panic (w : World) (b : Nat) : World × Nat :=
  if (w.builders b).LogLevel ≤ logrus.PanicLevel
  then (World.emit w b logrus.PanicLevel, b) else (w, b)

end KLogger

/- Concrete runs of the model used as evaluation inputs below. -/

/-- Concrete run: Logf from the initial state with message m and no
arguments; this allocates logrus logger 0, Data map 0 and builder 0. -/
def cexLogf : World × Nat := Logf World.init "m" []

/-- The run continued by SetLogLevel(logrus.ErrorLevel) on the builder. -/
def cexSetErr : World × Nat :=
  KLogger.SetLogLevel cexLogf.1 cexLogf.2 logrus.ErrorLevel

/-- A fresh logrus logger allocated after the first run (instance 1). -/
def cexNew : World × Nat := logrus.New cexLogf.1

/-- The global logger replaced by the fresh instance. -/
def cexReplaced : World := SetLogger cexNew.1 cexNew.2

/-- SetLogLevel(logrus.TraceLevel) called on the old builder after the
global logger has been replaced. -/
def cexSetAfterReplace : World × Nat :=
  KLogger.SetLogLevel cexReplaced cexLogf.2 logrus.TraceLevel

/-- Explicit initialization at the Error minimum level. -/
def cexInitErr : World :=
  InitializeGlobalLogger World.init logrus.ErrorLevel Formatter.JSONFormatter

/-- Logf after the explicit initialization at the Error minimum level. -/
def cexLogfErr : World × Nat := Logf cexInitErr "m" []

/-- A Go map literal holding foo to bar, allocated at process start. -/
def exDefaults : World × Nat :=
  World.allocMap World.init (mapSet (fun _ => none) "foo" (GoValue.str "bar"))

/-- The world whose process-wide default fields are foo to bar. -/
def exC6World : World := SetDefaultFields exDefaults.1 (some exDefaults.2)

/- Helper lemmas about the heap operations. -/

@[simp] lemma putMap_builders (w : World) (d : Nat) (m : FieldMap) :
    (w.putMap d m).builders = w.builders := rfl

@[simp] lemma putMap_loggers (w : World) (d : Nat) (m : FieldMap) :
    (w.putMap d m).loggers = w.loggers := rfl

@[simp] lemma putMap_defaultFields (w : World) (d : Nat) (m : FieldMap) :
    (w.putMap d m).defaultFields = w.defaultFields := rfl

@[simp] lemma putMap_maps (w : World) (d : Nat) (m : FieldMap) (i : Nat) :
    (w.putMap d m).maps i = if i = d then m else w.maps i := rfl

@[simp] lemma putBuilder_builders (w : World) (b : Nat) (k : KLogger) (i : Nat) :
    (w.putBuilder b k).builders i = if i = b then k else w.builders i := rfl

@[simp] lemma putBuilder_maps (w : World) (b : Nat) (k : KLogger) :
    (w.putBuilder b k).maps = w.maps := rfl

@[simp] lemma putBuilder_loggers (w : World) (b : Nat) (k : KLogger) :
    (w.putBuilder b k).loggers = w.loggers := rfl

@[simp] lemma putLogger_loggers (w : World) (g : Nat) (L : LogrusLogger) (i : Nat) :
    (w.putLogger g L).loggers i = if i = g then L else w.loggers i := rfl

@[simp] lemma putLogger_builders (w : World) (g : Nat) (L : LogrusLogger) :
    (w.putLogger g L).builders = w.builders := rfl

@[simp] lemma putLogger_maps (w : World) (g : Nat) (L : LogrusLogger) :
    (w.putLogger g L).maps = w.maps := rfl

@[simp] lemma putMap_globalLogger (w : World) (d : Nat) (m : FieldMap) :
    (w.putMap d m).globalLogger = w.globalLogger := rfl

@[simp] lemma putMap_once (w : World) (d : Nat) (m : FieldMap) :
    (w.putMap d m).once = w.once := rfl

@[simp] lemma putMap_nextMap (w : World) (d : Nat) (m : FieldMap) :
    (w.putMap d m).nextMap = w.nextMap := rfl

@[simp] lemma putMap_nextBuilder (w : World) (d : Nat) (m : FieldMap) :
    (w.putMap d m).nextBuilder = w.nextBuilder := rfl

@[simp] lemma putMap_nextLogger (w : World) (d : Nat) (m : FieldMap) :
    (w.putMap d m).nextLogger = w.nextLogger := rfl

@[simp] lemma putBuilder_globalLogger (w : World) (b : Nat) (k : KLogger) :
    (w.putBuilder b k).globalLogger = w.globalLogger := rfl

@[simp] lemma putBuilder_defaultFields (w : World) (b : Nat) (k : KLogger) :
    (w.putBuilder b k).defaultFields = w.defaultFields := rfl

@[simp] lemma putBuilder_once (w : World) (b : Nat) (k : KLogger) :
    (w.putBuilder b k).once = w.once := rfl

@[simp] lemma putBuilder_nextMap (w : World) (b : Nat) (k : KLogger) :
    (w.putBuilder b k).nextMap = w.nextMap := rfl

@[simp] lemma putBuilder_nextBuilder (w : World) (b : Nat) (k : KLogger) :
    (w.putBuilder b k).nextBuilder = w.nextBuilder := rfl

@[simp] lemma putBuilder_nextLogger (w : World) (b : Nat) (k : KLogger) :
    (w.putBuilder b k).nextLogger = w.nextLogger := rfl

@[simp] lemma putLogger_globalLogger (w : World) (g : Nat) (L : LogrusLogger) :
    (w.putLogger g L).globalLogger = w.globalLogger := rfl

@[simp] lemma putLogger_defaultFields (w : World) (g : Nat) (L : LogrusLogger) :
    (w.putLogger g L).defaultFields = w.defaultFields := rfl

@[simp] lemma putLogger_once (w : World) (g : Nat) (L : LogrusLogger) :
    (w.putLogger g L).once = w.once := rfl

@[simp] lemma putLogger_nextMap (w : World) (g : Nat) (L : LogrusLogger) :
    (w.putLogger g L).nextMap = w.nextMap := rfl

@[simp] lemma putLogger_nextBuilder (w : World) (g : Nat) (L : LogrusLogger) :
    (w.putLogger g L).nextBuilder = w.nextBuilder := rfl

@[simp] lemma putLogger_nextLogger (w : World) (g : Nat) (L : LogrusLogger) :
    (w.putLogger g L).nextLogger = w.nextLogger := rfl

@[simp] lemma nextMapIncr_nextMap (w : World) :
    w.nextMapIncr.nextMap = w.nextMap + 1 := rfl

@[simp] lemma nextMapIncr_maps (w : World) :
    w.nextMapIncr.maps = w.maps := rfl

@[simp] lemma nextMapIncr_builders (w : World) :
    w.nextMapIncr.builders = w.builders := rfl

@[simp] lemma nextMapIncr_loggers (w : World) :
    w.nextMapIncr.loggers = w.loggers := rfl

@[simp] lemma nextMapIncr_globalLogger (w : World) :
    w.nextMapIncr.globalLogger = w.globalLogger := rfl

@[simp] lemma nextMapIncr_defaultFields (w : World) :
    w.nextMapIncr.defaultFields = w.defaultFields := rfl

@[simp] lemma nextMapIncr_once (w : World) :
    w.nextMapIncr.once = w.once := rfl

@[simp] lemma nextMapIncr_nextBuilder (w : World) :
    w.nextMapIncr.nextBuilder = w.nextBuilder := rfl

@[simp] lemma nextMapIncr_nextLogger (w : World) :
    w.nextMapIncr.nextLogger = w.nextLogger := rfl

/-- Merging a source map into an empty map yields the source contents. -/
lemma mapMerge_empty (m : FieldMap) : mapMerge (fun _ => none) m = m := by
  funext k
  unfold mapMerge
  cases m k <;> rfl

/- Claim theorems. -/

/-- C10: the two level parsers returning a logrus level are extensionally
equal; ParseLogLevel and StringToLogrusLevel are verbatim duplicates. -/
theorem ParseLogLevel_eq_StringToLogrusLevel :
    ∀ s : String, ParseLogLevel s = StringToLogrusLevel s := fun _ => rfl

/-- C4: the level parsers are total on strings; on every input whose
trimmed lower-cased form is a recognized token they return exactly the
corresponding severity, with warn and warning both mapping to Warn, and on
every other input they return the Info severity. -/
theorem parse_level_total_mapping (s : String) :
    (strings.ToLower (strings.TrimSpace s) = "trace" →
      ParseLogLevel s = logrus.TraceLevel ∧ StringToLogLevel s = LogLevel.TraceLevel) ∧
    (strings.ToLower (strings.TrimSpace s) = "debug" →
      ParseLogLevel s = logrus.DebugLevel ∧ StringToLogLevel s = LogLevel.DebugLevel) ∧
    (strings.ToLower (strings.TrimSpace s) = "info" →
      ParseLogLevel s = logrus.InfoLevel ∧ StringToLogLevel s = LogLevel.InfoLevel) ∧
    ((strings.ToLower (strings.TrimSpace s) = "warn" ∨
        strings.ToLower (strings.TrimSpace s) = "warning") →
      ParseLogLevel s = logrus.WarnLevel ∧ StringToLogLevel s = LogLevel.WarnLevel) ∧
    (strings.ToLower (strings.TrimSpace s) = "error" →
      ParseLogLevel s = logrus.ErrorLevel ∧ StringToLogLevel s = LogLevel.ErrorLevel) ∧
    (strings.ToLower (strings.TrimSpace s) = "fatal" →
      ParseLogLevel s = logrus.FatalLevel ∧ StringToLogLevel s = LogLevel.FatalLevel) ∧
    (strings.ToLower (strings.TrimSpace s) = "panic" →
      ParseLogLevel s = logrus.PanicLevel ∧ StringToLogLevel s = LogLevel.PanicLevel) ∧
    (strings.ToLower (strings.TrimSpace s) ∉
        (["trace", "debug", "info", "warn", "warning", "error", "fatal", "panic"] :
          List String) →
      ParseLogLevel s = logrus.InfoLevel ∧ StringToLogLevel s = LogLevel.InfoLevel) := by
  refine ⟨fun h => ?_, fun h => ?_, fun h => ?_, fun h => ?_, fun h => ?_,
    fun h => ?_, fun h => ?_, fun h => ?_⟩
  case _ => constructor <;> simp [ParseLogLevel, StringToLogLevel, h]
  case _ => constructor <;> simp [ParseLogLevel, StringToLogLevel, h]
  case _ => constructor <;> simp [ParseLogLevel, StringToLogLevel, h]
  case _ =>
    rcases h with h | h <;>
      constructor <;> simp [ParseLogLevel, StringToLogLevel, h]
  case _ => constructor <;> simp [ParseLogLevel, StringToLogLevel, h]
  case _ => constructor <;> simp [ParseLogLevel, StringToLogLevel, h]
  case _ => constructor <;> simp [ParseLogLevel, StringToLogLevel, h]
  case _ =>
    simp only [List.mem_cons, List.mem_singleton] at h
    push_neg at h
    obtain ⟨h1, h2, h3, h4, h5, h6, h7, h8⟩ := h
    constructor <;>
      simp [ParseLogLevel, StringToLogLevel, h1, h2, h3, h4, h5, h6, h7, h8]

/-- Witness for C4: evaluation on a token with case and whitespace noise,
and on an unrecognized input. -/
theorem parse_level_total_mapping_witness :
    (ParseLogLevel "  WARN  " = logrus.WarnLevel ∧
      StringToLogLevel "  WARN  " = LogLevel.WarnLevel) ∧
    (ParseLogLevel "info123" = logrus.InfoLevel ∧
      StringToLogLevel "info123" = LogLevel.InfoLevel) :=
  ⟨(parse_level_total_mapping "  WARN  ").2.2.2.1 (Or.inl (by decide)),
   (parse_level_total_mapping "info123").2.2.2.2.2.2.2 (by decide)⟩

/-- C5: the one-time initializer has first-call-wins semantics: starting
from an uninitialized state, a second call with any arguments is a no-op,
and the global logger keeps the level and formatter of the first call. -/
theorem InitializeGlobalLogger_first_call_wins
    (w : World) (L1 L2 : Nat) (F1 F2 : Formatter) (h : w.once = false) :
    InitializeGlobalLogger (InitializeGlobalLogger w L1 F1) L2 F2 =
        InitializeGlobalLogger w L1 F1 ∧
    (InitializeGlobalLogger w L1 F1).globalLogger = some w.nextLogger ∧
    ((InitializeGlobalLogger w L1 F1).loggers w.nextLogger).level = L1 ∧
    ((InitializeGlobalLogger w L1 F1).loggers w.nextLogger).formatter = F1 := by
  simp [InitializeGlobalLogger, logrus.New, logrus.SetLevel, logrus.SetFormatter, h]

/-- Witness for C5: the second call on the freshly started process keeps
the first configuration. -/
theorem InitializeGlobalLogger_first_call_wins_witness :
    InitializeGlobalLogger
        (InitializeGlobalLogger World.init logrus.ErrorLevel Formatter.TextFormatter)
        logrus.DebugLevel Formatter.JSONFormatter =
      InitializeGlobalLogger World.init logrus.ErrorLevel Formatter.TextFormatter ∧
    (InitializeGlobalLogger World.init logrus.ErrorLevel
        Formatter.TextFormatter).globalLogger = some 0 ∧
    ((InitializeGlobalLogger World.init logrus.ErrorLevel
        Formatter.TextFormatter).loggers 0).level = logrus.ErrorLevel ∧
    ((InitializeGlobalLogger World.init logrus.ErrorLevel
        Formatter.TextFormatter).loggers 0).formatter = Formatter.TextFormatter := by
  simpa using InitializeGlobalLogger_first_call_wins World.init logrus.ErrorLevel
    logrus.DebugLevel Formatter.TextFormatter Formatter.JSONFormatter rfl

/- Projection lemmas about the one-time initializer and Logf. -/

@[simp] lemma InitGL_once (w : World) (L : Nat) (F : Formatter) :
    (InitializeGlobalLogger w L F).once = true := by
  unfold InitializeGlobalLogger logrus.New logrus.SetLevel logrus.SetFormatter
  split
  · assumption
  · rfl

@[simp] lemma InitGL_globalLogger (w : World) (L : Nat) (F : Formatter) :
    (InitializeGlobalLogger w L F).globalLogger =
      if w.once then w.globalLogger else some w.nextLogger := by
  unfold InitializeGlobalLogger logrus.New logrus.SetLevel logrus.SetFormatter
  split <;> simp_all

@[simp] lemma InitGL_nextMap (w : World) (L : Nat) (F : Formatter) :
    (InitializeGlobalLogger w L F).nextMap = w.nextMap := by
  unfold InitializeGlobalLogger logrus.New logrus.SetLevel logrus.SetFormatter
  split <;> rfl

@[simp] lemma InitGL_nextBuilder (w : World) (L : Nat) (F : Formatter) :
    (InitializeGlobalLogger w L F).nextBuilder = w.nextBuilder := by
  unfold InitializeGlobalLogger logrus.New logrus.SetLevel logrus.SetFormatter
  split <;> rfl

@[simp] lemma InitGL_maps (w : World) (L : Nat) (F : Formatter) :
    (InitializeGlobalLogger w L F).maps = w.maps := by
  unfold InitializeGlobalLogger logrus.New logrus.SetLevel logrus.SetFormatter
  split <;> rfl

@[simp] lemma InitGL_builders (w : World) (L : Nat) (F : Formatter) :
    (InitializeGlobalLogger w L F).builders = w.builders := by
  unfold InitializeGlobalLogger logrus.New logrus.SetLevel logrus.SetFormatter
  split <;> rfl

@[simp] lemma InitGL_defaultFields (w : World) (L : Nat) (F : Formatter) :
    (InitializeGlobalLogger w L F).defaultFields = w.defaultFields := by
  unfold InitializeGlobalLogger logrus.New logrus.SetLevel logrus.SetFormatter
  split <;> rfl

lemma InitGL_of_once (w : World) (L : Nat) (F : Formatter) (h : w.once = true) :
    InitializeGlobalLogger w L F = w := by
  unfold InitializeGlobalLogger
  simp [h]

@[simp] lemma AddData_snd (w : World) (b : Nat) (data : Option Nat) :
    (KLogger.AddData w b data).2 = b := by
  cases data <;> rfl

@[simp] lemma AddData_builders (w : World) (b : Nat) (data : Option Nat) :
    (KLogger.AddData w b data).1.builders = w.builders := by
  cases data <;> rfl

@[simp] lemma AddData_loggers (w : World) (b : Nat) (data : Option Nat) :
    (KLogger.AddData w b data).1.loggers = w.loggers := by
  cases data <;> rfl

@[simp] lemma AddData_globalLogger (w : World) (b : Nat) (data : Option Nat) :
    (KLogger.AddData w b data).1.globalLogger = w.globalLogger := by
  cases data <;> rfl

@[simp] lemma AddData_defaultFields (w : World) (b : Nat) (data : Option Nat) :
    (KLogger.AddData w b data).1.defaultFields = w.defaultFields := by
  cases data <;> rfl

@[simp] lemma AddData_nextMap (w : World) (b : Nat) (data : Option Nat) :
    (KLogger.AddData w b data).1.nextMap = w.nextMap := by
  cases data <;> rfl

@[simp] lemma AddData_nextBuilder (w : World) (b : Nat) (data : Option Nat) :
    (KLogger.AddData w b data).1.nextBuilder = w.nextBuilder := by
  cases data <;> rfl

lemma AddData_maps_frame (w : World) (b : Nat) (data : Option Nat) (i : Nat)
    (h : i ≠ (w.builders b).Data) :
    (KLogger.AddData w b data).1.maps i = w.maps i := by
  cases data <;> simp [KLogger.AddData, h]

lemma AddData_maps_self (w : World) (b : Nat) (m : Nat) :
    (KLogger.AddData w b (some m)).1.maps (w.builders b).Data =
      mapMerge (w.maps (w.builders b).Data) (w.maps m) := by
  simp [KLogger.AddData]

lemma Logf_snd (w : World) (format : String) (vars : List GoValue) :
    (Logf w format vars).2 = w.nextBuilder := by
  unfold Logf
  simp

lemma Logf_builder (w : World) (format : String) (vars : List GoValue) :
    (Logf w format vars).1.builders w.nextBuilder =
      ⟨(InitializeGlobalLogger w DefaultLogLevel Formatter.JSONFormatter).globalLogger,
        fmt.Sprintf format vars, 0, w.nextMap⟩ := by
  unfold Logf
  simp

lemma Logf_builders_frame (w : World) (format : String) (vars : List GoValue)
    (i : Nat) (h : i ≠ w.nextBuilder) :
    (Logf w format vars).1.builders i = w.builders i := by
  unfold Logf
  simp [h]

@[simp] lemma Logf_globalLogger (w : World) (format : String) (vars : List GoValue) :
    (Logf w format vars).1.globalLogger =
      (InitializeGlobalLogger w DefaultLogLevel Formatter.JSONFormatter).globalLogger := by
  unfold Logf
  simp

@[simp] lemma Logf_defaultFields (w : World) (format : String) (vars : List GoValue) :
    (Logf w format vars).1.defaultFields = w.defaultFields := by
  unfold Logf
  simp

@[simp] lemma Logf_loggers (w : World) (format : String) (vars : List GoValue) :
    (Logf w format vars).1.loggers =
      (InitializeGlobalLogger w DefaultLogLevel Formatter.JSONFormatter).loggers := by
  unfold Logf
  simp

@[simp] lemma Logf_nextMap (w : World) (format : String) (vars : List GoValue) :
    (Logf w format vars).1.nextMap = w.nextMap + 1 := by
  unfold Logf
  simp [World.nextMapIncr]

@[simp] lemma Logf_nextBuilder (w : World) (format : String) (vars : List GoValue) :
    (Logf w format vars).1.nextBuilder = w.nextBuilder + 1 := by
  unfold Logf
  simp

lemma Logf_maps_self_none (w : World) (format : String) (vars : List GoValue)
    (hd : w.defaultFields = none) :
    (Logf w format vars).1.maps w.nextMap = fun _ => none := by
  unfold Logf
  simp [hd, KLogger.AddData, World.nextMapIncr]

lemma Logf_maps_self_some (w : World) (format : String) (vars : List GoValue)
    (dm : Nat) (hd : w.defaultFields = some dm) (hne : dm ≠ w.nextMap) :
    (Logf w format vars).1.maps w.nextMap = w.maps dm := by
  unfold Logf
  simp [hd, KLogger.AddData, World.nextMapIncr, hne, mapMerge_empty]

lemma Logf_maps_frame (w : World) (format : String) (vars : List GoValue)
    (i : Nat) (h : i ≠ w.nextMap) :
    (Logf w format vars).1.maps i = w.maps i := by
  unfold Logf
  cases hd : w.defaultFields <;> simp [hd, KLogger.AddData, World.nextMapIncr, h]

/- Lemmas about the emit body and the terminal-method guards. -/

lemma emit_loggers_self (w : World) (b g : Nat) (lvl : Nat)
    (hg : (w.builders b).Logger = some g) :
    (World.emit w b lvl).loggers g =
      { w.loggers g with
        calls := (w.loggers g).calls ++
          [⟨lvl, w.maps (w.builders b).Data, (w.builders b).Message⟩]
        out := if lvl ≤ (w.loggers g).level then
            (w.loggers g).out ++
              [⟨lvl, w.maps (w.builders b).Data, (w.builders b).Message⟩]
          else (w.loggers g).out } := by
  unfold World.emit
  dsimp only
  rw [hg]
  simp

lemma emit_loggers_frame (w : World) (b g : Nat) (lvl : Nat) (i : Nat)
    (hg : (w.builders b).Logger = some g) (hne : i ≠ g) :
    (World.emit w b lvl).loggers i = w.loggers i := by
  unfold World.emit
  dsimp only
  rw [hg]
  simp [hne]

@[simp] lemma emit_builders (w : World) (b : Nat) (lvl : Nat) :
    (World.emit w b lvl).builders = w.builders := by
  unfold World.emit
  dsimp only
  cases h : (w.builders b).Logger <;> rfl

@[simp] lemma emit_maps (w : World) (b : Nat) (lvl : Nat) :
    (World.emit w b lvl).maps = w.maps := by
  unfold World.emit
  dsimp only
  cases h : (w.builders b).Logger <;> rfl

@[simp] lemma emit_globalLogger (w : World) (b : Nat) (lvl : Nat) :
    (World.emit w b lvl).globalLogger = w.globalLogger := by
  unfold World.emit
  dsimp only
  cases h : (w.builders b).Logger <;> rfl

@[simp] lemma emit_defaultFields (w : World) (b : Nat) (lvl : Nat) :
    (World.emit w b lvl).defaultFields = w.defaultFields := by
  unfold World.emit
  dsimp only
  cases h : (w.builders b).Logger <;> rfl

/- Guard lemmas for the six terminal methods. -/

lemma Debug_of_le (w : World) (b : Nat)
    (h : (w.builders b).LogLevel ≤ logrus.DebugLevel) :
    KLogger.Debug w b = (World.emit w b logrus.DebugLevel, b) := by
  simp [KLogger.Debug, h]

lemma Debug_of_gt (w : World) (b : Nat)
    (h : logrus.DebugLevel < (w.builders b).LogLevel) :
    KLogger.Debug w b = (w, b) := by
  simp [KLogger.Debug, not_le.mpr h]

lemma Info_of_le (w : World) (b : Nat)
    (h : (w.builders b).LogLevel ≤ logrus.InfoLevel) :
    KLogger.Info w b = (World.emit w b logrus.InfoLevel, b) := by
  simp [KLogger.Info, h]

lemma Info_of_gt (w : World) (b : Nat)
    (h : logrus.InfoLevel < (w.builders b).LogLevel) :
    KLogger.Info w b = (w, b) := by
  simp [KLogger.Info, not_le.mpr h]

lemma Warn_of_le (w : World) (b : Nat)
    (h : (w.builders b).LogLevel ≤ logrus.WarnLevel) :
    KLogger.Warn w b = (World.emit w b logrus.WarnLevel, b) := by
  simp [KLogger.Warn, h]

lemma Warn_of_gt (w : World) (b : Nat)
    (h : logrus.WarnLevel < (w.builders b).LogLevel) :
    KLogger.Warn w b = (w, b) := by
  simp [KLogger.Warn, not_le.mpr h]

lemma Error_of_le (w : World) (b : Nat)
    (h : (w.builders b).LogLevel ≤ logrus.ErrorLevel) :
    KLogger.Error w b = (World.emit w b logrus.ErrorLevel, b) := by
  simp [KLogger.Error, h]

lemma Error_of_gt (w : World) (b : Nat)
    (h : logrus.ErrorLevel < (w.builders b).LogLevel) :
    KLogger.Error w b = (w, b) := by
  simp [KLogger.Error, not_le.mpr h]

lemma Fatal_of_le (w : World) (b : Nat)
    (h : (w.builders b).LogLevel ≤ logrus.FatalLevel) :
    KLogger.Fatal w b = (World.emit w b logrus.FatalLevel, b) := by
  simp [KLogger.Fatal, h]

lemma Fatal_of_gt (w : World) (b : Nat)
    (h : logrus.FatalLevel < (w.builders b).LogLevel) :
    KLogger.Fatal w b = (w, b) := by
  simp [KLogger.Fatal, not_le.mpr h]

lemma Panic_of_le (w : World) (b : Nat)
    (h : (w.builders b).LogLevel ≤ logrus.PanicLevel) :
    KLogger.Panic w b = (World.emit w b logrus.PanicLevel, b) := by
  simp [KLogger.Panic, h]

lemma Panic_of_gt (w : World) (b : Nat)
    (h : logrus.PanicLevel < (w.builders b).LogLevel) :
    KLogger.Panic w b = (w, b) := by
  simp [KLogger.Panic, not_le.mpr h]

/-- C1 counterexample: a builder whose threshold was set to the Error
severity, which is above Info in the severity ordering
Trace < Debug < Info < Warn < Error < Fatal < Panic, still forwards a
WithFields Info invocation to the underlying logger when Info() is called:
the recorded call list of logger 0 grows from empty to one Info entry.
Under the claim the call should have been a silent no-op. -/
theorem klogger_gate_severity_order_cex :
    (cexSetErr.1.builders cexSetErr.2).LogLevel = logrus.ErrorLevel ∧
    (cexSetErr.1.loggers 0).calls = [] ∧
    ((KLogger.Info cexSetErr.1 cexSetErr.2).1.loggers 0).calls.map Entry.level =
      [logrus.InfoLevel] ∧
    ((KLogger.Info cexSetErr.1 cexSetErr.2).1.loggers 0).calls.map Entry.msg =
      ["m"] :=
  ⟨rfl, rfl, rfl, rfl⟩

/-- C1 amended: each terminal method compares the builder's LogLevel to
the invoked severity under the numeric logrus ordering, in which
Panic = 0 < Fatal < Error < Warn < Info < Debug < Trace = 6 (the reverse
of the severity ordering): when LogLevel ≤ the invoked numeric level the
rendered message and the accumulated field mapping are forwarded to the
underlying logger's corresponding emit primitive, and otherwise the call
is a silent no-op returning the unchanged state and the same builder. -/
theorem terminal_guard_numeric_order (w : World) (b g : Nat)
    (hg : (w.builders b).Logger = some g) :
    ((w.builders b).LogLevel ≤ logrus.DebugLevel →
      ((KLogger.Debug w b).1.loggers g).calls = (w.loggers g).calls ++
        [⟨logrus.DebugLevel, w.maps (w.builders b).Data, (w.builders b).Message⟩]) ∧
    (logrus.DebugLevel < (w.builders b).LogLevel → KLogger.Debug w b = (w, b)) ∧
    ((w.builders b).LogLevel ≤ logrus.InfoLevel →
      ((KLogger.Info w b).1.loggers g).calls = (w.loggers g).calls ++
        [⟨logrus.InfoLevel, w.maps (w.builders b).Data, (w.builders b).Message⟩]) ∧
    (logrus.InfoLevel < (w.builders b).LogLevel → KLogger.Info w b = (w, b)) ∧
    ((w.builders b).LogLevel ≤ logrus.WarnLevel →
      ((KLogger.Warn w b).1.loggers g).calls = (w.loggers g).calls ++
        [⟨logrus.WarnLevel, w.maps (w.builders b).Data, (w.builders b).Message⟩]) ∧
    (logrus.WarnLevel < (w.builders b).LogLevel → KLogger.Warn w b = (w, b)) ∧
    ((w.builders b).LogLevel ≤ logrus.ErrorLevel →
      ((KLogger.Error w b).1.loggers g).calls = (w.loggers g).calls ++
        [⟨logrus.ErrorLevel, w.maps (w.builders b).Data, (w.builders b).Message⟩]) ∧
    (logrus.ErrorLevel < (w.builders b).LogLevel → KLogger.Error w b = (w, b)) ∧
    ((w.builders b).LogLevel ≤ logrus.FatalLevel →
      ((KLogger.Fatal w b).1.loggers g).calls = (w.loggers g).calls ++
        [⟨logrus.FatalLevel, w.maps (w.builders b).Data, (w.builders b).Message⟩]) ∧
    (logrus.FatalLevel < (w.builders b).LogLevel → KLogger.Fatal w b = (w, b)) ∧
    ((w.builders b).LogLevel ≤ logrus.PanicLevel →
      ((KLogger.Panic w b).1.loggers g).calls = (w.loggers g).calls ++
        [⟨logrus.PanicLevel, w.maps (w.builders b).Data, (w.builders b).Message⟩]) ∧
    (logrus.PanicLevel < (w.builders b).LogLevel → KLogger.Panic w b = (w, b)) := by
  refine ⟨fun h => ?_, Debug_of_gt w b, fun h => ?_, Info_of_gt w b,
    fun h => ?_, Warn_of_gt w b, fun h => ?_, Error_of_gt w b,
    fun h => ?_, Fatal_of_gt w b, fun h => ?_, Panic_of_gt w b⟩
  · rw [Debug_of_le w b h, emit_loggers_self w b g logrus.DebugLevel hg]
  · rw [Info_of_le w b h, emit_loggers_self w b g logrus.InfoLevel hg]
  · rw [Warn_of_le w b h, emit_loggers_self w b g logrus.WarnLevel hg]
  · rw [Error_of_le w b h, emit_loggers_self w b g logrus.ErrorLevel hg]
  · rw [Fatal_of_le w b h, emit_loggers_self w b g logrus.FatalLevel hg]
  · rw [Panic_of_le w b h, emit_loggers_self w b g logrus.PanicLevel hg]

/-- Witness for the amended C1 at the concrete run: with the threshold at
the Error level (numeric 2), Info() forwards (2 ≤ 4) and Panic() is a
silent no-op (0 < 2). -/
theorem terminal_guard_numeric_order_witness :
    ((KLogger.Info cexSetErr.1 cexSetErr.2).1.loggers 0).calls =
      (cexSetErr.1.loggers 0).calls ++
        [⟨logrus.InfoLevel, cexSetErr.1.maps (cexSetErr.1.builders cexSetErr.2).Data,
          (cexSetErr.1.builders cexSetErr.2).Message⟩] ∧
    KLogger.Panic cexSetErr.1 cexSetErr.2 = (cexSetErr.1, cexSetErr.2) := by
  have h := terminal_guard_numeric_order cexSetErr.1 cexSetErr.2 0 rfl
  exact ⟨h.2.2.1 (by decide), h.2.2.2.2.2.2.2.2.2.2.2 (by decide)⟩

/-- C3: a builder returned by Logf on which SetLogLevel has never been
called carries the Go zero value 0 of logrus.Level in its LogLevel field,
which is logrus.PanicLevel, so the guard LogLevel ≤ invoked level holds at
every level and every terminal method forwards its call to the underlying
logger, regardless of the minimum level configured at initialization.  The
hypothesis only rules out the unreachable state of a consumed once guard
with a nil global logger. -/
theorem logf_zero_loglevel_always_forwards (w : World) (format : String)
    (vars : List GoValue)
    (hw : w.once = false ∨ ∃ g0, w.globalLogger = some g0) :
    ((Logf w format vars).1.builders (Logf w format vars).2).LogLevel =
      logrus.PanicLevel ∧
    (∀ lvl : Nat,
      ((Logf w format vars).1.builders (Logf w format vars).2).LogLevel ≤ lvl) ∧
    ∃ g, ((Logf w format vars).1.builders (Logf w format vars).2).Logger = some g ∧
      ((KLogger.Debug (Logf w format vars).1 (Logf w format vars).2).1.loggers g).calls =
        ((Logf w format vars).1.loggers g).calls ++
          [⟨logrus.DebugLevel,
            (Logf w format vars).1.maps
              ((Logf w format vars).1.builders (Logf w format vars).2).Data,
            fmt.Sprintf format vars⟩] ∧
      ((KLogger.Info (Logf w format vars).1 (Logf w format vars).2).1.loggers g).calls =
        ((Logf w format vars).1.loggers g).calls ++
          [⟨logrus.InfoLevel,
            (Logf w format vars).1.maps
              ((Logf w format vars).1.builders (Logf w format vars).2).Data,
            fmt.Sprintf format vars⟩] ∧
      ((KLogger.Warn (Logf w format vars).1 (Logf w format vars).2).1.loggers g).calls =
        ((Logf w format vars).1.loggers g).calls ++
          [⟨logrus.WarnLevel,
            (Logf w format vars).1.maps
              ((Logf w format vars).1.builders (Logf w format vars).2).Data,
            fmt.Sprintf format vars⟩] ∧
      ((KLogger.Error (Logf w format vars).1 (Logf w format vars).2).1.loggers g).calls =
        ((Logf w format vars).1.loggers g).calls ++
          [⟨logrus.ErrorLevel,
            (Logf w format vars).1.maps
              ((Logf w format vars).1.builders (Logf w format vars).2).Data,
            fmt.Sprintf format vars⟩] ∧
      ((KLogger.Fatal (Logf w format vars).1 (Logf w format vars).2).1.loggers g).calls =
        ((Logf w format vars).1.loggers g).calls ++
          [⟨logrus.FatalLevel,
            (Logf w format vars).1.maps
              ((Logf w format vars).1.builders (Logf w format vars).2).Data,
            fmt.Sprintf format vars⟩] ∧
      ((KLogger.Panic (Logf w format vars).1 (Logf w format vars).2).1.loggers g).calls =
        ((Logf w format vars).1.loggers g).calls ++
          [⟨logrus.PanicLevel,
            (Logf w format vars).1.maps
              ((Logf w format vars).1.builders (Logf w format vars).2).Data,
            fmt.Sprintf format vars⟩] := by
  have hsnd := Logf_snd w format vars
  have hbld := Logf_builder w format vars
  have hLL : ((Logf w format vars).1.builders (Logf w format vars).2).LogLevel = 0 := by
    rw [hsnd, hbld]
  have hMsg : ((Logf w format vars).1.builders (Logf w format vars).2).Message =
      fmt.Sprintf format vars := by
    rw [hsnd, hbld]
  have hle : ∀ lvl : Nat,
      ((Logf w format vars).1.builders (Logf w format vars).2).LogLevel ≤ lvl := by
    intro lvl
    rw [hLL]
    exact Nat.zero_le lvl
  obtain ⟨g, hg⟩ : ∃ g,
      ((Logf w format vars).1.builders (Logf w format vars).2).Logger = some g := by
    rw [hsnd, hbld]
    rcases hw with h1 | ⟨g0, hg0⟩
    · exact ⟨w.nextLogger, by simp [h1]⟩
    · by_cases h : w.once
      · exact ⟨g0, by simp [h, hg0]⟩
      · exact ⟨w.nextLogger, by simp [h]⟩
  refine ⟨hLL, hle, g, hg, ?_, ?_, ?_, ?_, ?_, ?_⟩
  · rw [Debug_of_le _ _ (hle _), emit_loggers_self _ _ _ _ hg]
    dsimp only
    rw [hMsg]
  · rw [Info_of_le _ _ (hle _), emit_loggers_self _ _ _ _ hg]
    dsimp only
    rw [hMsg]
  · rw [Warn_of_le _ _ (hle _), emit_loggers_self _ _ _ _ hg]
    dsimp only
    rw [hMsg]
  · rw [Error_of_le _ _ (hle _), emit_loggers_self _ _ _ _ hg]
    dsimp only
    rw [hMsg]
  · rw [Fatal_of_le _ _ (hle _), emit_loggers_self _ _ _ _ hg]
    dsimp only
    rw [hMsg]
  · rw [Panic_of_le _ _ (hle _), emit_loggers_self _ _ _ _ hg]
    dsimp only
    rw [hMsg]

/-- Witness for C3: at the concrete initialized-at-Error run, the fresh
Logf builder has LogLevel 0 and its Info call is forwarded. -/
theorem logf_zero_loglevel_always_forwards_witness :
    (cexLogfErr.1.builders cexLogfErr.2).LogLevel = logrus.PanicLevel ∧
    ∃ g, (cexLogfErr.1.builders cexLogfErr.2).Logger = some g := by
  have h := logf_zero_loglevel_always_forwards cexInitErr "m" []
    (Or.inr ⟨0, rfl⟩)
  exact ⟨h.1, h.2.2.elim fun g hg => ⟨g, hg.1⟩⟩

/-- C9: the message text is rendered exactly once, eagerly, at
construction, by printf-style substitution (Logf with Hello %s and World
yields the literal Hello World), and is immutable thereafter: no Add,
AddData, AddError, SetLogLevel or terminal severity call changes the
builder's Message. -/
theorem logf_message_rendered_eagerly_immutable (w : World) (format : String)
    (vars : List GoValue) :
    ((Logf w format vars).1.builders (Logf w format vars).2).Message =
      fmt.Sprintf format vars ∧
    fmt.Sprintf "Hello %s" [GoValue.str "World"] = "Hello World" ∧
    (∀ w1 b key v,
      ((KLogger.Add w1 b key v).1.builders b).Message = (w1.builders b).Message) ∧
    (∀ w1 b data,
      ((KLogger.AddData w1 b data).1.builders b).Message = (w1.builders b).Message) ∧
    (∀ w1 b e st,
      ((KLogger.AddError w1 b e st).1.builders b).Message = (w1.builders b).Message) ∧
    (∀ w1 b lvl,
      ((KLogger.SetLogLevel w1 b lvl).1.builders b).Message = (w1.builders b).Message) ∧
    (∀ w1 b,
      ((KLogger.Debug w1 b).1.builders b).Message = (w1.builders b).Message) ∧
    (∀ w1 b,
      ((KLogger.Info w1 b).1.builders b).Message = (w1.builders b).Message) ∧
    (∀ w1 b,
      ((KLogger.Warn w1 b).1.builders b).Message = (w1.builders b).Message) ∧
    (∀ w1 b,
      ((KLogger.Error w1 b).1.builders b).Message = (w1.builders b).Message) ∧
    (∀ w1 b,
      ((KLogger.Fatal w1 b).1.builders b).Message = (w1.builders b).Message) ∧
    (∀ w1 b,
      ((KLogger.Panic w1 b).1.builders b).Message = (w1.builders b).Message) := by
  refine ⟨?_, rfl, fun w1 b key v => rfl, fun w1 b data => ?_, fun w1 b e st => rfl,
    fun w1 b lvl => ?_, fun w1 b => ?_, fun w1 b => ?_, fun w1 b => ?_,
    fun w1 b => ?_, fun w1 b => ?_, fun w1 b => ?_⟩
  · rw [Logf_snd, Logf_builder]
  · cases data <;> rfl
  · unfold KLogger.SetLogLevel
    dsimp only
    cases hL : (w1.builders b).Logger <;> simp [logrus.SetLevel, hL]
  · unfold KLogger.Debug
    split <;> simp
  · unfold KLogger.Info
    split <;> simp
  · unfold KLogger.Warn
    split <;> simp
  · unfold KLogger.Error
    split <;> simp
  · unfold KLogger.Fatal
    split <;> simp
  · unfold KLogger.Panic
    split <;> simp

/-- C7 counterexample: after the global logger has been replaced by a
fresh instance (logger 1, whose level is the logrus.New default
InfoLevel), calling SetLogLevel(logrus.TraceLevel) on a builder
constructed earlier mutates the level of the old logger instance 0 the
builder still references, while the minimum emit level of the shared
global logger (instance 1) stays at InfoLevel, not TraceLevel.  Under the
claim, SetLogLevel should have mutated the shared global logger's level. -/
theorem set_log_level_global_side_effect_cex :
    cexSetAfterReplace.1.globalLogger = some 1 ∧
    (cexSetAfterReplace.1.loggers 1).level = logrus.InfoLevel ∧
    logrus.InfoLevel ≠ logrus.TraceLevel ∧
    (cexSetAfterReplace.1.loggers 0).level = logrus.TraceLevel :=
  ⟨rfl, rfl, by decide, rfl⟩

/-- C7 amended: for every builder holding a logger reference,
SetLogLevel(L) sets the builder's LogLevel field to L, mutates the minimum
emit level of the logrus instance the builder references (the global
logger captured at its construction) to L, and returns the same builder;
this is the shared global logger's level exactly when the builder's
reference is still the current global logger. -/
theorem set_log_level_sets_builder_and_referenced_logger (w : World)
    (b g L : Nat) (hg : (w.builders b).Logger = some g) :
    (KLogger.SetLogLevel w b L).2 = b ∧
    ((KLogger.SetLogLevel w b L).1.builders b).LogLevel = L ∧
    ((KLogger.SetLogLevel w b L).1.loggers g).level = L ∧
    (w.globalLogger = some g →
      (KLogger.SetLogLevel w b L).1.globalLogger = some g ∧
      ((KLogger.SetLogLevel w b L).1.loggers g).level = L) := by
  unfold KLogger.SetLogLevel
  dsimp only
  rw [hg]
  refine ⟨rfl, by simp [logrus.SetLevel], by simp [logrus.SetLevel], fun hG => ?_⟩
  exact ⟨by simp [logrus.SetLevel, hG], by simp [logrus.SetLevel]⟩

/-- Witness for the amended C7 at the concrete first run: SetLogLevel on
builder 0, whose reference is still the global logger 0. -/
theorem set_log_level_sets_builder_and_referenced_logger_witness :
    (KLogger.SetLogLevel cexLogf.1 cexLogf.2 logrus.WarnLevel).2 = cexLogf.2 ∧
    ((KLogger.SetLogLevel cexLogf.1 cexLogf.2 logrus.WarnLevel).1.builders
        cexLogf.2).LogLevel = logrus.WarnLevel ∧
    ((KLogger.SetLogLevel cexLogf.1 cexLogf.2 logrus.WarnLevel).1.loggers 0).level =
      logrus.WarnLevel ∧
    (KLogger.SetLogLevel cexLogf.1 cexLogf.2 logrus.WarnLevel).1.globalLogger =
      some 0 := by
  have h := set_log_level_sets_builder_and_referenced_logger cexLogf.1 cexLogf.2 0
    logrus.WarnLevel rfl
  exact ⟨h.1, h.2.1, h.2.2.1, (h.2.2.2 rfl).1⟩

/-- C2 counterexample: the process is initialized with the minimum level
logrus.ErrorLevel, which is above Info in the severity ordering, and a
builder is then constructed by Logf.  Under the claim its Info() call must
not forward; in fact the builder forwards the WithFields Info invocation
to the underlying logger (whose own level check then discards it, so the
out list stays empty while the call list grows). -/
theorem logf_config_min_forward_cex :
    (cexLogfErr.1.loggers 0).level = logrus.ErrorLevel ∧
    (cexLogfErr.1.loggers 0).calls = [] ∧
    ((KLogger.Info cexLogfErr.1 cexLogfErr.2).1.loggers 0).calls.map Entry.level =
      [logrus.InfoLevel] ∧
    ((KLogger.Info cexLogfErr.1 cexLogfErr.2).1.loggers 0).out = [] :=
  ⟨rfl, rfl, rfl, rfl⟩

/-- C2 amended: a builder built via Logf forwards its message and fields
to the underlying logger at every terminal severity, regardless of the
configured minimum level, because its own LogLevel field is the zero value
0; the configured minimum level gates emission inside the underlying
logrus instance instead: the forwarded entry at numeric severity S is
written to the output exactly when S ≤ the instance's level numerically,
which is the severity-order condition configured minimum ≤ S. -/
theorem logf_forward_vs_output_gating (w : World) (format : String)
    (vars : List GoValue) (g : Nat)
    (hg : ((Logf w format vars).1.builders (Logf w format vars).2).Logger = some g) :
    (((KLogger.Debug (Logf w format vars).1 (Logf w format vars).2).1.loggers g).calls =
        ((Logf w format vars).1.loggers g).calls ++
          [⟨logrus.DebugLevel,
            (Logf w format vars).1.maps
              ((Logf w format vars).1.builders (Logf w format vars).2).Data,
            fmt.Sprintf format vars⟩] ∧
      ((KLogger.Debug (Logf w format vars).1 (Logf w format vars).2).1.loggers g).out =
        ((Logf w format vars).1.loggers g).out ++
          (if logrus.DebugLevel ≤ ((Logf w format vars).1.loggers g).level then
            [⟨logrus.DebugLevel,
              (Logf w format vars).1.maps
                ((Logf w format vars).1.builders (Logf w format vars).2).Data,
              fmt.Sprintf format vars⟩]
          else [])) ∧
    (((KLogger.Info (Logf w format vars).1 (Logf w format vars).2).1.loggers g).calls =
        ((Logf w format vars).1.loggers g).calls ++
          [⟨logrus.InfoLevel,
            (Logf w format vars).1.maps
              ((Logf w format vars).1.builders (Logf w format vars).2).Data,
            fmt.Sprintf format vars⟩] ∧
      ((KLogger.Info (Logf w format vars).1 (Logf w format vars).2).1.loggers g).out =
        ((Logf w format vars).1.loggers g).out ++
          (if logrus.InfoLevel ≤ ((Logf w format vars).1.loggers g).level then
            [⟨logrus.InfoLevel,
              (Logf w format vars).1.maps
                ((Logf w format vars).1.builders (Logf w format vars).2).Data,
              fmt.Sprintf format vars⟩]
          else [])) ∧
    (((KLogger.Warn (Logf w format vars).1 (Logf w format vars).2).1.loggers g).calls =
        ((Logf w format vars).1.loggers g).calls ++
          [⟨logrus.WarnLevel,
            (Logf w format vars).1.maps
              ((Logf w format vars).1.builders (Logf w format vars).2).Data,
            fmt.Sprintf format vars⟩] ∧
      ((KLogger.Warn (Logf w format vars).1 (Logf w format vars).2).1.loggers g).out =
        ((Logf w format vars).1.loggers g).out ++
          (if logrus.WarnLevel ≤ ((Logf w format vars).1.loggers g).level then
            [⟨logrus.WarnLevel,
              (Logf w format vars).1.maps
                ((Logf w format vars).1.builders (Logf w format vars).2).Data,
              fmt.Sprintf format vars⟩]
          else [])) ∧
    (((KLogger.Error (Logf w format vars).1 (Logf w format vars).2).1.loggers g).calls =
        ((Logf w format vars).1.loggers g).calls ++
          [⟨logrus.ErrorLevel,
            (Logf w format vars).1.maps
              ((Logf w format vars).1.builders (Logf w format vars).2).Data,
            fmt.Sprintf format vars⟩] ∧
      ((KLogger.Error (Logf w format vars).1 (Logf w format vars).2).1.loggers g).out =
        ((Logf w format vars).1.loggers g).out ++
          (if logrus.ErrorLevel ≤ ((Logf w format vars).1.loggers g).level then
            [⟨logrus.ErrorLevel,
              (Logf w format vars).1.maps
                ((Logf w format vars).1.builders (Logf w format vars).2).Data,
              fmt.Sprintf format vars⟩]
          else [])) ∧
    (((KLogger.Fatal (Logf w format vars).1 (Logf w format vars).2).1.loggers g).calls =
        ((Logf w format vars).1.loggers g).calls ++
          [⟨logrus.FatalLevel,
            (Logf w format vars).1.maps
              ((Logf w format vars).1.builders (Logf w format vars).2).Data,
            fmt.Sprintf format vars⟩] ∧
      ((KLogger.Fatal (Logf w format vars).1 (Logf w format vars).2).1.loggers g).out =
        ((Logf w format vars).1.loggers g).out ++
          (if logrus.FatalLevel ≤ ((Logf w format vars).1.loggers g).level then
            [⟨logrus.FatalLevel,
              (Logf w format vars).1.maps
                ((Logf w format vars).1.builders (Logf w format vars).2).Data,
              fmt.Sprintf format vars⟩]
          else [])) ∧
    (((KLogger.Panic (Logf w format vars).1 (Logf w format vars).2).1.loggers g).calls =
        ((Logf w format vars).1.loggers g).calls ++
          [⟨logrus.PanicLevel,
            (Logf w format vars).1.maps
              ((Logf w format vars).1.builders (Logf w format vars).2).Data,
            fmt.Sprintf format vars⟩] ∧
      ((KLogger.Panic (Logf w format vars).1 (Logf w format vars).2).1.loggers g).out =
        ((Logf w format vars).1.loggers g).out ++
          (if logrus.PanicLevel ≤ ((Logf w format vars).1.loggers g).level then
            [⟨logrus.PanicLevel,
              (Logf w format vars).1.maps
                ((Logf w format vars).1.builders (Logf w format vars).2).Data,
              fmt.Sprintf format vars⟩]
          else [])) := by
  have hsnd := Logf_snd w format vars
  have hbld := Logf_builder w format vars
  have hLL : ((Logf w format vars).1.builders (Logf w format vars).2).LogLevel = 0 := by
    rw [hsnd, hbld]
  have hMsg : ((Logf w format vars).1.builders (Logf w format vars).2).Message =
      fmt.Sprintf format vars := by
    rw [hsnd, hbld]
  have hle : ∀ lvl : Nat,
      ((Logf w format vars).1.builders (Logf w format vars).2).LogLevel ≤ lvl := by
    intro lvl
    rw [hLL]
    exact Nat.zero_le lvl
  refine ⟨⟨?_, ?_⟩, ⟨?_, ?_⟩, ⟨?_, ?_⟩, ⟨?_, ?_⟩, ⟨?_, ?_⟩, ⟨?_, ?_⟩⟩
  · rw [Debug_of_le _ _ (hle _), emit_loggers_self _ _ _ _ hg]
    dsimp only
    rw [hMsg]
  · rw [Debug_of_le _ _ (hle _), emit_loggers_self _ _ _ _ hg]
    dsimp only
    rw [hMsg]
    split <;> simp
  · rw [Info_of_le _ _ (hle _), emit_loggers_self _ _ _ _ hg]
    dsimp only
    rw [hMsg]
  · rw [Info_of_le _ _ (hle _), emit_loggers_self _ _ _ _ hg]
    dsimp only
    rw [hMsg]
    split <;> simp
  · rw [Warn_of_le _ _ (hle _), emit_loggers_self _ _ _ _ hg]
    dsimp only
    rw [hMsg]
  · rw [Warn_of_le _ _ (hle _), emit_loggers_self _ _ _ _ hg]
    dsimp only
    rw [hMsg]
    split <;> simp
  · rw [Error_of_le _ _ (hle _), emit_loggers_self _ _ _ _ hg]
    dsimp only
    rw [hMsg]
  · rw [Error_of_le _ _ (hle _), emit_loggers_self _ _ _ _ hg]
    dsimp only
    rw [hMsg]
    split <;> simp
  · rw [Fatal_of_le _ _ (hle _), emit_loggers_self _ _ _ _ hg]
    dsimp only
    rw [hMsg]
  · rw [Fatal_of_le _ _ (hle _), emit_loggers_self _ _ _ _ hg]
    dsimp only
    rw [hMsg]
    split <;> simp
  · rw [Panic_of_le _ _ (hle _), emit_loggers_self _ _ _ _ hg]
    dsimp only
    rw [hMsg]
  · rw [Panic_of_le _ _ (hle _), emit_loggers_self _ _ _ _ hg]
    dsimp only
    rw [hMsg]
    split <;> simp

/-- Witness for the amended C2 at the concrete run initialized at the
Error minimum level: Info() forwards its call, and the underlying logger,
whose level is 2, discards the entry (4 ≤ 2 fails), leaving out empty. -/
theorem logf_forward_vs_output_gating_witness :
    ((KLogger.Info cexLogfErr.1 cexLogfErr.2).1.loggers 0).calls.map Entry.level =
      [logrus.InfoLevel] ∧
    ((KLogger.Info cexLogfErr.1 cexLogfErr.2).1.loggers 0).out = [] := by
  have h := logf_forward_vs_output_gating cexInitErr "m" [] 0 rfl
  constructor
  · rw [show (KLogger.Info cexLogfErr.1 cexLogfErr.2).1 =
        (KLogger.Info (Logf cexInitErr "m" []).1 (Logf cexInitErr "m" []).2).1 from rfl,
      h.2.1.1]
    rfl
  · rw [show (KLogger.Info cexLogfErr.1 cexLogfErr.2).1 =
        (KLogger.Info (Logf cexInitErr "m" []).1 (Logf cexInitErr "m" []).2).1 from rfl,
      h.2.1.2]
    rfl

/-- C6: a builder constructed via Logf is seeded with a copy of the
current default fields, not an alias: with default fields foo to bar, a
builder built by Logf and extended with Add(k, v) holds the mapping foo to
bar plus k to v; the default-fields map itself is unchanged and still
referenced, a builder constructed afterwards observes foo to bar and no k,
and no Add, AddData or AddError on a builder whose Data map is distinct
from the default-fields map changes the default-fields contents. -/
theorem logf_copies_default_fields (w : World) (format : String)
    (vars : List GoValue) (format2 : String) (vars2 : List GoValue) (d : Nat)
    (hd : w.defaultFields = some d) (hfresh : d < w.nextMap)
    (hmap : w.maps d = mapSet (fun _ => none) "foo" (GoValue.str "bar")) :
    ((KLogger.Add (Logf w format vars).1 (Logf w format vars).2 "k"
        (GoValue.str "v")).1.maps
      (((KLogger.Add (Logf w format vars).1 (Logf w format vars).2 "k"
          (GoValue.str "v")).1.builders (Logf w format vars).2).Data)) =
      mapSet (mapSet (fun _ => none) "foo" (GoValue.str "bar")) "k"
        (GoValue.str "v") ∧
    ((KLogger.Add (Logf w format vars).1 (Logf w format vars).2 "k"
        (GoValue.str "v")).1.maps d) = w.maps d ∧
    ((KLogger.Add (Logf w format vars).1 (Logf w format vars).2 "k"
        (GoValue.str "v")).1.defaultFields) = some d ∧
    ((Logf ((KLogger.Add (Logf w format vars).1 (Logf w format vars).2 "k"
          (GoValue.str "v")).1) format2 vars2).1.maps
        (((Logf ((KLogger.Add (Logf w format vars).1 (Logf w format vars).2 "k"
            (GoValue.str "v")).1) format2 vars2).1.builders
          ((Logf ((KLogger.Add (Logf w format vars).1 (Logf w format vars).2 "k"
            (GoValue.str "v")).1) format2 vars2).2)).Data) "foo" =
        some (GoValue.str "bar") ∧
      (Logf ((KLogger.Add (Logf w format vars).1 (Logf w format vars).2 "k"
          (GoValue.str "v")).1) format2 vars2).1.maps
        (((Logf ((KLogger.Add (Logf w format vars).1 (Logf w format vars).2 "k"
            (GoValue.str "v")).1) format2 vars2).1.builders
          ((Logf ((KLogger.Add (Logf w format vars).1 (Logf w format vars).2 "k"
            (GoValue.str "v")).1) format2 vars2).2)).Data) "k" = none) ∧
    (∀ b key v, (w.builders b).Data ≠ d →
      (KLogger.Add w b key v).1.maps d = w.maps d) ∧
    (∀ b data, (w.builders b).Data ≠ d →
      (KLogger.AddData w b data).1.maps d = w.maps d) ∧
    (∀ b e st, (w.builders b).Data ≠ d →
      (KLogger.AddError w b e st).1.maps d = w.maps d) := by
  have hne : d ≠ w.nextMap := Nat.ne_of_lt hfresh
  have hsnd := Logf_snd w format vars
  have hbld := Logf_builder w format vars
  have hData : ((Logf w format vars).1.builders (Logf w format vars).2).Data =
      w.nextMap := by
    rw [hsnd, hbld]
  have hself : (Logf w format vars).1.maps w.nextMap = w.maps d :=
    Logf_maps_self_some w format vars d hd hne
  have hAddmaps : ∀ i : Nat,
      (KLogger.Add (Logf w format vars).1 (Logf w format vars).2 "k"
        (GoValue.str "v")).1.maps i =
      if i = w.nextMap then
        mapSet ((Logf w format vars).1.maps w.nextMap) "k" (GoValue.str "v")
      else (Logf w format vars).1.maps i := by
    intro i
    unfold KLogger.Add
    dsimp only
    rw [hData]
    simp
  have hAddbuilders :
      (KLogger.Add (Logf w format vars).1 (Logf w format vars).2 "k"
        (GoValue.str "v")).1.builders = (Logf w format vars).1.builders := rfl
  have hAdddf :
      (KLogger.Add (Logf w format vars).1 (Logf w format vars).2 "k"
        (GoValue.str "v")).1.defaultFields = some d := by
    rw [show (KLogger.Add (Logf w format vars).1 (Logf w format vars).2 "k"
        (GoValue.str "v")).1.defaultFields =
      (Logf w format vars).1.defaultFields from rfl]
    rw [Logf_defaultFields]
    exact hd
  have hmapd :
      (KLogger.Add (Logf w format vars).1 (Logf w format vars).2 "k"
        (GoValue.str "v")).1.maps d = w.maps d := by
    rw [hAddmaps d, if_neg hne, Logf_maps_frame w format vars d hne]
  refine ⟨?_, hmapd, hAdddf, ⟨?_, ?_⟩, ?_, ?_, ?_⟩
  · rw [hAddbuilders, hData, hAddmaps w.nextMap, if_pos rfl, hself, hmap]
  · have hnm2 : (KLogger.Add (Logf w format vars).1 (Logf w format vars).2 "k"
        (GoValue.str "v")).1.nextMap = w.nextMap + 1 := by
      rw [show (KLogger.Add (Logf w format vars).1 (Logf w format vars).2 "k"
          (GoValue.str "v")).1.nextMap = (Logf w format vars).1.nextMap from rfl,
        Logf_nextMap]
    have hne2 : d ≠ (KLogger.Add (Logf w format vars).1 (Logf w format vars).2 "k"
        (GoValue.str "v")).1.nextMap := by
      rw [hnm2]
      exact Nat.ne_of_lt (Nat.lt_succ_of_lt hfresh)
    have h3 := Logf_maps_self_some
      ((KLogger.Add (Logf w format vars).1 (Logf w format vars).2 "k"
        (GoValue.str "v")).1) format2 vars2 d hAdddf hne2
    have h3d := Logf_builder
      ((KLogger.Add (Logf w format vars).1 (Logf w format vars).2 "k"
        (GoValue.str "v")).1) format2 vars2
    rw [Logf_snd _ format2 vars2, h3d, h3, hmapd, hmap]
    simp [mapSet]
  · have hnm2 : (KLogger.Add (Logf w format vars).1 (Logf w format vars).2 "k"
        (GoValue.str "v")).1.nextMap = w.nextMap + 1 := by
      rw [show (KLogger.Add (Logf w format vars).1 (Logf w format vars).2 "k"
          (GoValue.str "v")).1.nextMap = (Logf w format vars).1.nextMap from rfl,
        Logf_nextMap]
    have hne2 : d ≠ (KLogger.Add (Logf w format vars).1 (Logf w format vars).2 "k"
        (GoValue.str "v")).1.nextMap := by
      rw [hnm2]
      exact Nat.ne_of_lt (Nat.lt_succ_of_lt hfresh)
    have h3 := Logf_maps_self_some
      ((KLogger.Add (Logf w format vars).1 (Logf w format vars).2 "k"
        (GoValue.str "v")).1) format2 vars2 d hAdddf hne2
    have h3d := Logf_builder
      ((KLogger.Add (Logf w format vars).1 (Logf w format vars).2 "k"
        (GoValue.str "v")).1) format2 vars2
    rw [Logf_snd _ format2 vars2, h3d, h3, hmapd, hmap]
    simp [mapSet]
  · intro b key v h
    unfold KLogger.Add
    dsimp only
    simp [Ne.symm h]
  · intro b data h
    cases data <;> simp [KLogger.AddData, Ne.symm h]
  · intro b e st h
    unfold KLogger.AddError
    dsimp only
    simp [Ne.symm h]

/-- Witness for C6 at the concrete world whose default fields hold foo to
bar: the Logf-and-Add builder holds exactly foo to bar and k to v, and a
builder constructed afterwards observes foo to bar but no k. -/
theorem logf_copies_default_fields_witness :
    ((KLogger.Add (Logf exC6World "m" []).1 (Logf exC6World "m" []).2 "k"
        (GoValue.str "v")).1.maps
      (((KLogger.Add (Logf exC6World "m" []).1 (Logf exC6World "m" []).2 "k"
          (GoValue.str "v")).1.builders (Logf exC6World "m" []).2).Data)) =
      mapSet (mapSet (fun _ => none) "foo" (GoValue.str "bar")) "k"
        (GoValue.str "v") ∧
    ((Logf ((KLogger.Add (Logf exC6World "m" []).1 (Logf exC6World "m" []).2 "k"
          (GoValue.str "v")).1) "n" []).1.maps
        (((Logf ((KLogger.Add (Logf exC6World "m" []).1 (Logf exC6World "m" []).2 "k"
            (GoValue.str "v")).1) "n" []).1.builders
          ((Logf ((KLogger.Add (Logf exC6World "m" []).1 (Logf exC6World "m" []).2 "k"
            (GoValue.str "v")).1) "n" []).2)).Data) "foo" =
        some (GoValue.str "bar") ∧
      (Logf ((KLogger.Add (Logf exC6World "m" []).1 (Logf exC6World "m" []).2 "k"
          (GoValue.str "v")).1) "n" []).1.maps
        (((Logf ((KLogger.Add (Logf exC6World "m" []).1 (Logf exC6World "m" []).2 "k"
            (GoValue.str "v")).1) "n" []).1.builders
          ((Logf ((KLogger.Add (Logf exC6World "m" []).1 (Logf exC6World "m" []).2 "k"
            (GoValue.str "v")).1) "n" []).2)).Data) "k" = none) := by
  have h := logf_copies_default_fields exC6World "m" [] "n" [] 0 rfl
    (by decide) rfl
  exact ⟨h.1, h.2.2.2.1⟩

/-- C8: once initialization has occurred, replacing the shared logger via
SetLogger makes every builder subsequently constructed by Logf hold the
new instance and route each of its six emit calls to it, leaving every
other logger instance untouched. -/
theorem set_logger_routes_new_builders (w : World) (gNew : Nat)
    (format : String) (vars : List GoValue) (honce : w.once = true) :
    ((Logf (SetLogger w gNew) format vars).1.builders
        (Logf (SetLogger w gNew) format vars).2).Logger = some gNew ∧
    (((KLogger.Debug (Logf (SetLogger w gNew) format vars).1
          (Logf (SetLogger w gNew) format vars).2).1.loggers gNew).calls =
        ((Logf (SetLogger w gNew) format vars).1.loggers gNew).calls ++
          [⟨logrus.DebugLevel,
            (Logf (SetLogger w gNew) format vars).1.maps
              (((Logf (SetLogger w gNew) format vars).1.builders
                (Logf (SetLogger w gNew) format vars).2).Data),
            fmt.Sprintf format vars⟩] ∧
      ((KLogger.Info (Logf (SetLogger w gNew) format vars).1
          (Logf (SetLogger w gNew) format vars).2).1.loggers gNew).calls =
        ((Logf (SetLogger w gNew) format vars).1.loggers gNew).calls ++
          [⟨logrus.InfoLevel,
            (Logf (SetLogger w gNew) format vars).1.maps
              (((Logf (SetLogger w gNew) format vars).1.builders
                (Logf (SetLogger w gNew) format vars).2).Data),
            fmt.Sprintf format vars⟩] ∧
      ((KLogger.Warn (Logf (SetLogger w gNew) format vars).1
          (Logf (SetLogger w gNew) format vars).2).1.loggers gNew).calls =
        ((Logf (SetLogger w gNew) format vars).1.loggers gNew).calls ++
          [⟨logrus.WarnLevel,
            (Logf (SetLogger w gNew) format vars).1.maps
              (((Logf (SetLogger w gNew) format vars).1.builders
                (Logf (SetLogger w gNew) format vars).2).Data),
            fmt.Sprintf format vars⟩] ∧
      ((KLogger.Error (Logf (SetLogger w gNew) format vars).1
          (Logf (SetLogger w gNew) format vars).2).1.loggers gNew).calls =
        ((Logf (SetLogger w gNew) format vars).1.loggers gNew).calls ++
          [⟨logrus.ErrorLevel,
            (Logf (SetLogger w gNew) format vars).1.maps
              (((Logf (SetLogger w gNew) format vars).1.builders
                (Logf (SetLogger w gNew) format vars).2).Data),
            fmt.Sprintf format vars⟩] ∧
      ((KLogger.Fatal (Logf (SetLogger w gNew) format vars).1
          (Logf (SetLogger w gNew) format vars).2).1.loggers gNew).calls =
        ((Logf (SetLogger w gNew) format vars).1.loggers gNew).calls ++
          [⟨logrus.FatalLevel,
            (Logf (SetLogger w gNew) format vars).1.maps
              (((Logf (SetLogger w gNew) format vars).1.builders
                (Logf (SetLogger w gNew) format vars).2).Data),
            fmt.Sprintf format vars⟩] ∧
      ((KLogger.Panic (Logf (SetLogger w gNew) format vars).1
          (Logf (SetLogger w gNew) format vars).2).1.loggers gNew).calls =
        ((Logf (SetLogger w gNew) format vars).1.loggers gNew).calls ++
          [⟨logrus.PanicLevel,
            (Logf (SetLogger w gNew) format vars).1.maps
              (((Logf (SetLogger w gNew) format vars).1.builders
                (Logf (SetLogger w gNew) format vars).2).Data),
            fmt.Sprintf format vars⟩]) ∧
    (∀ gOld, gOld ≠ gNew →
      ((KLogger.Debug (Logf (SetLogger w gNew) format vars).1
          (Logf (SetLogger w gNew) format vars).2).1.loggers gOld =
        (Logf (SetLogger w gNew) format vars).1.loggers gOld ∧
      (KLogger.Info (Logf (SetLogger w gNew) format vars).1
          (Logf (SetLogger w gNew) format vars).2).1.loggers gOld =
        (Logf (SetLogger w gNew) format vars).1.loggers gOld ∧
      (KLogger.Warn (Logf (SetLogger w gNew) format vars).1
          (Logf (SetLogger w gNew) format vars).2).1.loggers gOld =
        (Logf (SetLogger w gNew) format vars).1.loggers gOld ∧
      (KLogger.Error (Logf (SetLogger w gNew) format vars).1
          (Logf (SetLogger w gNew) format vars).2).1.loggers gOld =
        (Logf (SetLogger w gNew) format vars).1.loggers gOld ∧
      (KLogger.Fatal (Logf (SetLogger w gNew) format vars).1
          (Logf (SetLogger w gNew) format vars).2).1.loggers gOld =
        (Logf (SetLogger w gNew) format vars).1.loggers gOld ∧
      (KLogger.Panic (Logf (SetLogger w gNew) format vars).1
          (Logf (SetLogger w gNew) format vars).2).1.loggers gOld =
        (Logf (SetLogger w gNew) format vars).1.loggers gOld)) := by
  have hsnd := Logf_snd (SetLogger w gNew) format vars
  have hbld := Logf_builder (SetLogger w gNew) format vars
  have hg : ((Logf (SetLogger w gNew) format vars).1.builders
      (Logf (SetLogger w gNew) format vars).2).Logger = some gNew := by
    rw [hsnd, hbld]
    simp [SetLogger, honce]
  have hLL : ((Logf (SetLogger w gNew) format vars).1.builders
      (Logf (SetLogger w gNew) format vars).2).LogLevel = 0 := by
    rw [hsnd, hbld]
  have hMsg : ((Logf (SetLogger w gNew) format vars).1.builders
      (Logf (SetLogger w gNew) format vars).2).Message =
      fmt.Sprintf format vars := by
    rw [hsnd, hbld]
  have hle : ∀ lvl : Nat, ((Logf (SetLogger w gNew) format vars).1.builders
      (Logf (SetLogger w gNew) format vars).2).LogLevel ≤ lvl := by
    intro lvl
    rw [hLL]
    exact Nat.zero_le lvl
  refine ⟨hg, ⟨?_, ?_, ?_, ?_, ?_, ?_⟩, fun gOld hne => ⟨?_, ?_, ?_, ?_, ?_, ?_⟩⟩
  · rw [Debug_of_le _ _ (hle _), emit_loggers_self _ _ _ _ hg]
    dsimp only
    rw [hMsg]
  · rw [Info_of_le _ _ (hle _), emit_loggers_self _ _ _ _ hg]
    dsimp only
    rw [hMsg]
  · rw [Warn_of_le _ _ (hle _), emit_loggers_self _ _ _ _ hg]
    dsimp only
    rw [hMsg]
  · rw [Error_of_le _ _ (hle _), emit_loggers_self _ _ _ _ hg]
    dsimp only
    rw [hMsg]
  · rw [Fatal_of_le _ _ (hle _), emit_loggers_self _ _ _ _ hg]
    dsimp only
    rw [hMsg]
  · rw [Panic_of_le _ _ (hle _), emit_loggers_self _ _ _ _ hg]
    dsimp only
    rw [hMsg]
  · rw [Debug_of_le _ _ (hle _)]
    exact emit_loggers_frame _ _ _ _ _ hg hne
  · rw [Info_of_le _ _ (hle _)]
    exact emit_loggers_frame _ _ _ _ _ hg hne
  · rw [Warn_of_le _ _ (hle _)]
    exact emit_loggers_frame _ _ _ _ _ hg hne
  · rw [Error_of_le _ _ (hle _)]
    exact emit_loggers_frame _ _ _ _ _ hg hne
  · rw [Fatal_of_le _ _ (hle _)]
    exact emit_loggers_frame _ _ _ _ _ hg hne
  · rw [Panic_of_le _ _ (hle _)]
    exact emit_loggers_frame _ _ _ _ _ hg hne

/-- Witness for C8 at the concrete run: after the first Logf consumed the
once guard and a fresh logger 1 was installed via SetLogger, the next Logf
builder holds logger 1, its Info call is recorded on logger 1, and the old
logger 0 is untouched by that call. -/
theorem set_logger_routes_new_builders_witness :
    ((Logf (SetLogger cexNew.1 1) "z" []).1.builders
        (Logf (SetLogger cexNew.1 1) "z" []).2).Logger = some 1 ∧
    ((KLogger.Info (Logf (SetLogger cexNew.1 1) "z" []).1
        (Logf (SetLogger cexNew.1 1) "z" []).2).1.loggers 1).calls =
      ((Logf (SetLogger cexNew.1 1) "z" []).1.loggers 1).calls ++
        [⟨logrus.InfoLevel,
          (Logf (SetLogger cexNew.1 1) "z" []).1.maps
            (((Logf (SetLogger cexNew.1 1) "z" []).1.builders
              (Logf (SetLogger cexNew.1 1) "z" []).2).Data),
          fmt.Sprintf "z" []⟩] ∧
    (KLogger.Info (Logf (SetLogger cexNew.1 1) "z" []).1
        (Logf (SetLogger cexNew.1 1) "z" []).2).1.loggers 0 =
      (Logf (SetLogger cexNew.1 1) "z" []).1.loggers 0 := by
  have h := set_logger_routes_new_builders cexNew.1 1 "z" [] rfl
  exact ⟨h.1, h.2.1.2.1, (h.2.2 0 (by decide)).2.1⟩

end GoKlogger
